import Mathlib

/-!
Verification development for the leverage-scoring pipeline of the
neo-hackathon repository.

The Python sources embedded here are:
  - `find_scores.py` (race-name parsing, Kalshi market validation,
    historical competitiveness, FEC saturation, the `process_races`
    aggregation pipeline);
  - `server/get_importance_scores.py` (a near-duplicate pipeline,
    `calculate_race_leverage_score`);
  - `server/get_monetary_estimate_value.py`
    (`calculate_dollar_power_multiplier`).

Modelling conventions:
  - Python floats are modelled as `ℚ` where every value reachable in the
    modelled code is rational (scores built from constants, prices,
    clamps), and as `ℝ` where the code applies `math.log`/`math.log10`.
  - Network collaborators (Kalshi search, FEC fetch, Civic Engine
    historical fetch, NANDA dataset) are abstracted as explicit inputs:
    a fetch that can raise becomes an `Except` value, an optional market
    becomes an `Option` value.  Log-valued sub-scores produced by
    separately embedded functions (`calculate_saturation_kalshi`,
    `calculate_competitiveness_primary`) enter the rational pipeline
    embedding as parameters, since the claims quantify over them.
  - Python dictionary truthiness (`if x:`) is embedded explicitly;
    `None` becomes `Option.none`, a missing string key becomes `""`,
    falsy `0` values are tested for explicitly where the code does.
-/

namespace Leverage

/-! ## String utilities (Python `in`, `str.lower`, `str.upper`) -/

/-- Python `needle in hay` on strings, as a scan over character lists. -/
def listContains : List Char → List Char → Bool
  | [], nee => nee.isEmpty
  | c :: t, nee => nee.isPrefixOf (c :: t) || listContains t nee

/-- Python `needle in hay` for `String`. -/
def strContains (hay nee : String) : Bool :=
  listContains hay.data nee.data

/-- Python `str.lower()` (the data here is ASCII). -/
def lowerStr (s : String) : String :=
  ⟨s.data.map Char.toLower⟩

/-- Python `str.upper()` (the data here is ASCII). -/
def upperStr (s : String) : String :=
  ⟨s.data.map Char.toUpper⟩

/-- Python `a or b` on strings: the empty string is falsy. -/
def pyOrS (a b : String) : String :=
  if a.isEmpty then b else a

/-- Numeric value of a digit run, as Python `int()` of the matched group. -/
def natOfDigits (ds : List Char) : Nat :=
  ds.foldl (fun a c => a * 10 + (c.toNat - 48)) 0

/-- Python `f"{n:02d}"` for a non-negative district number. -/
def pad2 (n : Nat) : String :=
  if n < 10 then "0" ++ toString n else toString n

/-! ## The district / year regexes of `parse_race_name` and
`validate_kalshi_market_match`.

`re.search(r'(\d+)(?:st|nd|rd|th)?\s+Congressional District', s)`:
the digit run, the optional ordinal suffix and the whitespace run are
each forced (no alternative can match after backtracking, since a digit
is neither an ordinal-suffix character nor whitespace, and the literal
starts with a non-whitespace character), so the scan below is an exact
model of the leftmost regex match. -/

/-- Strip an optional ordinal suffix `st|nd|rd|th`. -/
def stripOrdinal (cs : List Char) : List Char :=
  match cs with
  | 's' :: 't' :: r => r
  | 'n' :: 'd' :: r => r
  | 'r' :: 'd' :: r => r
  | 't' :: 'h' :: r => r
  | _ => cs

/-- Try `(\d+)(?:st|nd|rd|th)?\s+Congressional District` at this position. -/
def matchCongrAt (cs : List Char) : Option Nat :=
  let digits := cs.takeWhile Char.isDigit
  if digits.isEmpty then none
  else
    let rest := stripOrdinal (cs.dropWhile Char.isDigit)
    if (rest.takeWhile Char.isWhitespace).isEmpty then none
    else
      let rest2 := rest.dropWhile Char.isWhitespace
      if ("Congressional District".data).isPrefixOf rest2 then
        some (natOfDigits digits)
      else none

/-- Leftmost match of the Congressional-district pattern. -/
def findCongrDistrict : List Char → Option Nat
  | [] => none
  | c :: t =>
    match matchCongrAt (c :: t) with
    | some n => some n
    | none => findCongrDistrict t

/-- Try `District\s+(\d+)` at this position. -/
def matchDistrict2At (cs : List Char) : Option Nat :=
  if ("District".data).isPrefixOf cs then
    let rest := cs.drop 8
    if (rest.takeWhile Char.isWhitespace).isEmpty then none
    else
      let digits := (rest.dropWhile Char.isWhitespace).takeWhile Char.isDigit
      if digits.isEmpty then none else some (natOfDigits digits)
  else none

/-- Leftmost match of the `District N` pattern. -/
def findDistrict2 : List Char → Option Nat
  | [] => none
  | c :: t =>
    match matchDistrict2At (c :: t) with
    | some n => some n
    | none => findDistrict2 t

/-- Python `\w` on the ASCII data in play. -/
def isWordChar (c : Char) : Bool :=
  c.isAlphanum || c == '_'

/-- Try `\b(20\d{2})\b` at this position, given the previous character. -/
def matchYearAt (prev : Option Char) (cs : List Char) : Option Nat :=
  match cs with
  | '2' :: '0' :: c :: d :: rest =>
    if c.isDigit && d.isDigit
        && (match prev with | none => true | some p => !(isWordChar p))
        && (match rest with | [] => true | r :: _ => !(isWordChar r)) then
      some (natOfDigits ['2', '0', c, d])
    else none
  | _ => none

/-- First (leftmost) match of `re.findall(r'\b(20\d{2})\b', s)`. -/
def findYearToken : Option Char → List Char → Option Nat
  | _, [] => none
  | prev, c :: t =>
    match matchYearAt prev (c :: t) with
    | some n => some n
    | none => findYearToken (some c) t

/-! ## `parse_race_name` (identical in `find_scores.py` and
`server/get_importance_scores.py`) -/

/-- `STATE_NAME_TO_ABBREV`, in the source's insertion order. -/
def STATE_NAME_TO_ABBREV : List (String × String) :=
  [("Alabama", "AL"), ("Alaska", "AK"), ("Arizona", "AZ"), ("Arkansas", "AR"),
   ("California", "CA"), ("Colorado", "CO"), ("Connecticut", "CT"), ("Delaware", "DE"),
   ("Florida", "FL"), ("Georgia", "GA"), ("Hawaii", "HI"), ("Idaho", "ID"),
   ("Illinois", "IL"), ("Indiana", "IN"), ("Iowa", "IA"), ("Kansas", "KS"),
   ("Kentucky", "KY"), ("Louisiana", "LA"), ("Maine", "ME"), ("Maryland", "MD"),
   ("Massachusetts", "MA"), ("Michigan", "MI"), ("Minnesota", "MN"), ("Mississippi", "MS"),
   ("Missouri", "MO"), ("Montana", "MT"), ("Nebraska", "NE"), ("Nevada", "NV"),
   ("New Hampshire", "NH"), ("New Jersey", "NJ"), ("New Mexico", "NM"), ("New York", "NY"),
   ("North Carolina", "NC"), ("North Dakota", "ND"), ("Ohio", "OH"), ("Oklahoma", "OK"),
   ("Oregon", "OR"), ("Pennsylvania", "PA"), ("Rhode Island", "RI"), ("South Carolina", "SC"),
   ("South Dakota", "SD"), ("Tennessee", "TN"), ("Texas", "TX"), ("Utah", "UT"),
   ("Vermont", "VT"), ("Virginia", "VA"), ("Washington", "WA"), ("West Virginia", "WV"),
   ("Wisconsin", "WI"), ("Wyoming", "WY"), ("District of Columbia", "DC")]

/-- The parsed view of a race name: office type, state abbreviation,
district number. -/
structure RaceInfo where
  office : Option Char
  state : Option String
  district : Option Nat
deriving DecidableEq, Repr

/-- `parse_race_name(race_name)`. -/
def parse_race_name (raceName : String) : RaceInfo :=
  let cs := raceName.data
  let st := (STATE_NAME_TO_ABBREV.find? (fun p => listContains cs p.1.data)).map
    (fun p => p.2)
  if strContains raceName "U.S. Senate"
      || (strContains raceName "Senate" && strContains raceName "U.S.") then
    { office := some 'S', state := st, district := none }
  else if strContains raceName "U.S. House"
      || (strContains raceName "House of Representatives" && strContains raceName "U.S.") then
    let d :=
      match findCongrDistrict cs with
      | some n => some n
      | none =>
        match findDistrict2 cs with
        | some n => some n
        | none => none
    { office := some 'H', state := st, district := d }
  else
    { office := none, state := st, district := none }

/-! ## `validate_kalshi_market_match`

Embedded from `find_scores.py` (lines 572-716).  The copy in
`server/get_importance_scores.py` (lines 113-203) computes the same
validity flag; it differs only in not emitting the per-field mismatch
warnings and in not giving the partial credit for a nearby (within two
years) market year, which can only make `year_match` false where this
version sets it true.  The theorems below that constrain `isValid` from
above hold for both copies, and the concrete counterexample uses an
exact year match, on which both copies agree. -/

/-- One Kalshi market series, as the validator reads it: the four title
and ticker fields, a missing key being the empty string (the source
reads them with `get(key, '')` and an `or` chain on falsy values).
The `event_subtitle` field is extracted by the source but never used. -/
structure MarketSeries where
  seriesTitle : String
  eventTitle : String
  seriesTicker : String
  eventTicker : String
deriving DecidableEq, Repr

/-- `market_title = (get('series_title','') or get('event_title','') or '').lower()`. -/
def marketTitle (m : MarketSeries) : String :=
  lowerStr (pyOrS m.seriesTitle m.eventTitle)

/-- `market_ticker_orig = get('series_ticker','') or get('event_ticker','') or ''`. -/
def marketTickerOrig (m : MarketSeries) : String :=
  pyOrS m.seriesTicker m.eventTicker

/-- The lowercase `state_names` abbreviation table inside the validator. -/
def KALSHI_STATE_NAMES : List (String × String) :=
  [("al", "alabama"), ("ak", "alaska"), ("az", "arizona"), ("ar", "arkansas"),
   ("ca", "california"), ("co", "colorado"), ("ct", "connecticut"), ("de", "delaware"),
   ("fl", "florida"), ("ga", "georgia"), ("hi", "hawaii"), ("id", "idaho"),
   ("il", "illinois"), ("in", "indiana"), ("ia", "iowa"), ("ks", "kansas"),
   ("ky", "kentucky"), ("la", "louisiana"), ("me", "maine"), ("md", "maryland"),
   ("ma", "massachusetts"), ("mi", "michigan"), ("mn", "minnesota"), ("ms", "mississippi"),
   ("mo", "missouri"), ("mt", "montana"), ("ne", "nebraska"), ("nv", "nevada"),
   ("nh", "new hampshire"), ("nj", "new jersey"), ("nm", "new mexico"), ("ny", "new york"),
   ("nc", "north carolina"), ("nd", "north dakota"), ("oh", "ohio"), ("ok", "oklahoma"),
   ("or", "oregon"), ("pa", "pennsylvania"), ("ri", "rhode island"), ("sc", "south carolina"),
   ("sd", "south dakota"), ("tn", "tennessee"), ("tx", "texas"), ("ut", "utah"),
   ("vt", "vermont"), ("va", "virginia"), ("wa", "washington"), ("wv", "west virginia"),
   ("wi", "wisconsin"), ("wy", "wyoming"), ("dc", "district of columbia")]

/-- The validator's state-match check (`state_match`): abbreviation in
the lowered title or ticker, full state name in the title, or uppercase
abbreviation in the uppercase ticker.  False when no state parsed. -/
def vStateMatch (m : MarketSeries) (raceName : String) : Bool :=
  match (parse_race_name raceName).state with
  | none => false
  | some stAbbrev =>
    let state := lowerStr stAbbrev
    let stateFull :=
      ((KALSHI_STATE_NAMES.find? (fun p => p.1 == state)).map (fun p => p.2)).getD state
    let tickerOrig := marketTickerOrig m
    strContains (marketTitle m) state
      || strContains (lowerStr tickerOrig) state
      || strContains (marketTitle m) (lowerStr stateFull)
      || strContains (upperStr tickerOrig) (upperStr state)

/-- The validator's office-match check (`office_match`). -/
def vOfficeMatch (m : MarketSeries) (raceName : String) : Bool :=
  let title := marketTitle m
  let tickL := lowerStr (marketTickerOrig m)
  let tickU := upperStr (marketTickerOrig m)
  match (parse_race_name raceName).office with
  | some 'H' =>
    strContains title "house" || strContains tickU "HOUSE"
      || ("HOUSE".data.isPrefixOf tickU.data) || strContains tickL "h-"
  | some 'S' =>
    strContains title "senate" || strContains tickU "SENATE"
      || ("SENATE".data.isPrefixOf tickU.data) || strContains tickL "s-"
  | _ => false

/-- Python truthiness of `race_info.get('district')`: present and
non-zero. -/
def districtTruthy (ri : RaceInfo) : Bool :=
  match ri.district with
  | some d => decide (d ≠ 0)
  | none => false

/-- The validator's district-match check (`district_match`), attempted
only for a House race with a truthy parsed district. -/
def vDistrictMatch (m : MarketSeries) (raceName : String) : Bool :=
  let ri := parse_race_name raceName
  if ri.office = some 'H' ∧ districtTruthy ri then
    match ri.district with
    | some district =>
      let ds := toString district
      let tickL := lowerStr (marketTickerOrig m)
      strContains (marketTitle m) ds || strContains tickL ds
        || strContains tickL ("-" ++ pad2 district) || strContains tickL (pad2 district)
    | none => false
  else false

/-- Outcome of the year-match block: no year given (or a falsy `0`),
exact match, a nearby market year within two years (partial credit with
a warning), a far market year, or no `20xx` token found. -/
inductive YearOutcome where
  | noYear
  | exact
  | near (marketYear : Nat)
  | far (marketYear : Nat)
  | notFound
deriving DecidableEq, Repr

/-- Python truthiness of the optional `election_year` argument. -/
def yearTruthy (y : Option Int) : Bool :=
  match y with
  | none => false
  | some v => decide (v ≠ 0)

/-- The validator's year block: exact year string in title or ticker,
else the first `\b20\d{2}\b` token of `title + ' ' + ticker`, accepted
when within two years. -/
def vYearOutcome (m : MarketSeries) (electionYear : Option Int) : YearOutcome :=
  match electionYear with
  | none => .noYear
  | some y =>
    if y = 0 then .noYear
    else
      let title := marketTitle m
      let tickL := lowerStr (marketTickerOrig m)
      if strContains title (toString y) || strContains tickL (toString y) then .exact
      else
        match findYearToken none (title ++ " " ++ tickL).data with
        | some my =>
          if ((my : Int) - y).natAbs ≤ 2 then .near my else .far my
        | none => .notFound

/-- `year_match` flag: set by the exact and the nearby-year cases. -/
def vYearMatched (yo : YearOutcome) : Bool :=
  match yo with
  | .exact => true
  | .near _ => true
  | _ => false

/-- Score contribution of the year block. -/
def yearScoreContribution (yo : YearOutcome) : ℚ :=
  match yo with
  | .exact => 1/5
  | .near _ => 1/10
  | _ => 0

/-- Warnings of the state block. -/
def stateWarnings (ri : RaceInfo) (sm : Bool) : List String :=
  match ri.state with
  | some st =>
    if sm then []
    else ["State mismatch: looking for " ++ st ++ ", market may be for different state"]
  | none => []

/-- Warnings of the office block. -/
def officeWarnings (ri : RaceInfo) (om : Bool) : List String :=
  match ri.office with
  | some 'H' =>
    if om then []
    else ["Office type mismatch: looking for House, market may be for different office"]
  | some 'S' =>
    if om then []
    else ["Office type mismatch: looking for Senate, market may be for different office"]
  | _ => []

/-- Warnings of the district block. -/
def districtWarnings (ri : RaceInfo) (dm : Bool) : List String :=
  if ri.office = some 'H' ∧ districtTruthy ri then
    match ri.district with
    | some d =>
      if dm then []
      else ["District mismatch: looking for district " ++ toString d
            ++ ", market may be for different district"]
    | none => []
  else []

/-- Warnings of the year block. -/
def yearWarnings (electionYear : Option Int) (yo : YearOutcome) : List String :=
  let y := electionYear.getD 0
  match yo with
  | .noYear => []
  | .exact => []
  | .near my =>
    ["Year mismatch: looking for " ++ toString y ++ ", market is for " ++ toString my
     ++ " (using anyway)"]
  | .far my =>
    ["Year mismatch: looking for " ++ toString y ++ ", market is for " ++ toString my]
  | .notFound => ["Year not found in market: looking for " ++ toString y]

/-- The validator's output: `(is_valid, match_score, warnings)`. -/
structure MatchResult where
  isValid : Bool
  matchScore : ℚ
  warnings : List String
deriving DecidableEq, Repr

/-- `validate_kalshi_market_match(market_series, race_name, election_year)`.
`none` models a falsy (empty or missing) `market_series` argument. -/
def validate_kalshi_market_match (market : Option MarketSeries) (raceName : String)
    (electionYear : Option Int) : MatchResult :=
  match market with
  | none => { isValid := false, matchScore := 0, warnings := ["No market series provided"] }
  | some m =>
    let ri := parse_race_name raceName
    let sm := vStateMatch m raceName
    let om := vOfficeMatch m raceName
    let dm := vDistrictMatch m raceName
    let yo := vYearOutcome m electionYear
    let score : ℚ :=
      (if sm then 3/10 else 0) + (if om then 3/10 else 0)
        + (if dm then 1/5 else 0) + yearScoreContribution yo
    let v1 :=
      if ri.office = some 'H' ∧ districtTruthy ri then sm && om && dm else sm && om
    let lenient := !v1 && sm && om && (vYearMatched yo || !yearTruthy electionYear)
    { isValid := v1 || lenient,
      matchScore := score,
      warnings :=
        stateWarnings ri sm ++ officeWarnings ri om ++ districtWarnings ri dm
          ++ yearWarnings electionYear yo
          ++ (if lenient then ["Using market despite some mismatches (state and office match)"]
              else []) }

/-! ## `calculate_competitiveness_general`
(identical in both sources: clamp the price to `[1, 99]`, then
`1 - |price - 50| / 50`). -/

/-- `calculate_competitiveness_general(price)`. -/
def calculate_competitiveness_general (price : ℚ) : ℚ :=
  let price := max 1 (min 99 price)
  1 - |price - 50| / 50

/-! ## `calculate_competitiveness_from_historical` (`find_scores.py`
lines 448-551).

The Civic Engine fetch (`get_historical_election_results`) is
abstracted: the function below takes the fetched list directly.  Each
fetched record carries `year`, `winner_name` and `winner_party`; only
`winner_party` is read by the scoring logic, so a record is embedded as
its optional party string. -/

/-- One historical election result, reduced to the only field the
scoring reads (`winner_party`; `none` models a missing key). -/
structure HistEntry where
  winnerParty : Option String
deriving DecidableEq, Repr

/-- Python truthiness filter `if r.get('winner_party')`: present and
non-empty. -/
def truthyParty : Option String → Option String
  | some s => if s.isEmpty then none else some s
  | none => none

/-- `parties = [r.get('winner_party') for r in historical_results if r.get('winner_party')]`. -/
def extractParties (results : List HistEntry) : List String :=
  results.filterMap (fun r => truthyParty r.winnerParty)

/-- `transitions = sum(1 for i in range(1, len(parties)) if parties[i] != parties[i-1])`. -/
def countTransitions : List String → Nat
  | a :: b :: t => (if a ≠ b then 1 else 0) + countTransitions (b :: t)
  | _ => 0

/-- The metadata fields of the historical strategy that the claims
inspect (`data_quality`, `historical_elections_found`, `warnings`). -/
structure HistMeta where
  dataQuality : String
  historicalElectionsFound : Nat
  warnings : List String
deriving DecidableEq, Repr

/-- `calculate_competitiveness_from_historical`, as a function of the
fetched historical results.  The comparison `transition_ratio > 0.5`
with `transition_ratio = transitions / (len(parties) - 1)` is embedded
exactly, as `2 * transitions > len(parties) - 1`. -/
def calculate_competitiveness_from_historical (results : List HistEntry) : ℚ × HistMeta :=
  if results.isEmpty then
    (1/2, { dataQuality := "none", historicalElectionsFound := 0,
            warnings := ["No historical election results available"] })
  else
    let parties := extractParties results
    if parties.isEmpty then
      (1/2, { dataQuality := "low", historicalElectionsFound := results.length,
              warnings := ["No party information in historical results"] })
    else
      let numElections := parties.length
      let uniqueParties := parties.dedup.length
      let competitiveness : ℚ :=
        if uniqueParties = 1 then 3/10
        else if uniqueParties = 2 then
          if numElections > 1 ∧ 2 * countTransitions parties > numElections - 1 then 4/5
          else 1/2
        else 9/10
      let quality :=
        if numElections ≥ 3 then "high"
        else if numElections ≥ 2 then "medium"
        else "low"
      let warns :=
        if numElections ≥ 3 ∨ numElections ≥ 2 then []
        else ["Limited historical data - only one election cycle"]
      (competitiveness,
       { dataQuality := quality, historicalElectionsFound := results.length,
         warnings := warns })

/-! ## `calculate_dollar_power_multiplier`
(`server/get_monetary_estimate_value.py` lines 517-558).
`math.log10` is `Real.logb 10`. -/

/-- `calculate_dollar_power_multiplier(donation_amount, total_race_volume)`. -/
noncomputable def calculate_dollar_power_multiplier
    (donationAmount totalRaceVolume : ℝ) : ℝ :=
  if totalRaceVolume ≤ 0 then 1
  else if donationAmount ≤ 0 then 1
  else
    let proportion := donationAmount / totalRaceVolume
    let proportion := min proportion 1
    let multiplier := 1 + Real.logb 10 (1 + proportion * 1000) * 2
    max 0.5 (min 5 multiplier)

/-! ## `calculate_saturation_fec`
(`find_scores.py` lines 1145-1243; the copy in
`server/get_importance_scores.py` lines 457-511 is identical except for
a shorter zero-receipts warning string).

The provider call `get_fec_candidates_total_receipts` is abstracted as
an `Except String ℝ` input: `.error e` models the call raising an
exception `e` (caught by the `try/except` around it), `.ok r` models it
returning total receipts `r`.  `date.today().year` is the
`currentYear` input.  `math.log` is `Real.log`. -/

/-- The saturation metadata fields the claims inspect. -/
structure SatMeta where
  dataQuality : String
  warnings : List String
  error : Option String
  totalReceipts : ℝ

/-- `calculate_saturation_fec(race_name, cycle)`. -/
noncomputable def calculate_saturation_fec (raceName : String) (cycle currentYear : Int)
    (fetch : Except String ℝ) : ℝ × SatMeta :=
  let ri := parse_race_name raceName
  if ri.office = none ∨ ri.state = none then
    (1 / Real.log (1 + 10000000),
     { dataQuality := "low", warnings := ["Could not parse race name"],
       error := none, totalReceipts := 0 })
  else
    match fetch with
    | .error e =>
      (0.5, { dataQuality := "none", warnings := ["FEC API error: " ++ e],
              error := some e, totalReceipts := 0 })
    | .ok totalReceipts =>
      if totalReceipts = 0 then
        let cycleWarns :=
          if cycle > currentYear then
            ["Future cycle " ++ toString cycle ++ " - data may not exist yet"]
          else if cycle < 2018 then
            ["Old cycle " ++ toString cycle ++ " - data may be incomplete"]
          else []
        let quality := if cycle > currentYear ∨ cycle < 2018 then "low" else "high"
        (1, { dataQuality := quality,
              warnings :=
                cycleWarns
                  ++ ["No fundraising data found - may indicate no candidates or incomplete data"],
              error := none, totalReceipts := 0 })
      else
        (max 0.05 (min 1 (1 / Real.log (1 + totalReceipts))),
         { dataQuality := "high", warnings := [], error := none,
           totalReceipts := totalReceipts })

/-! ## The `process_races` per-race scoring (`find_scores.py` lines
1427-1758)

Collaborator seams, abstracted as inputs:
  - the Kalshi search (`get_kalshi_market`) becomes an
    `Option MarketSeriesView` (the series with its markets, attached
    `_validation`, and `total_series_volume`, with the source's
    `or 0` fallback already applied to the volume);
  - `calculate_competitiveness_primary` (an entropy computation over
    the market prices, real-valued) enters as the input `compPrimary`,
    used exactly where the source calls it (more than two markets);
  - the score returned by `calculate_saturation_kalshi` (a ratio of
    real logarithms of the spread and volume) enters as the input
    `satKalshi`; its volume-threshold metadata is embedded concretely.
    The bid/ask spread computed by the source is consumed only by that
    abstracted call, so it does not appear separately;
  - the Civic Engine historical fetch becomes
    `histFetch : Except Unit (List HistEntry)` (`.error` = the
    `try/except` around `calculate_competitiveness_from_historical`
    caught an exception), feeding the embedded function above;
  - the NANDA dataset presence is `nandaData`, and
    `calculate_competitiveness_nanda` (out of the claims' scope)
    becomes `nandaFetch : Except Unit ℚ`;
  - the result of `calculate_saturation_fec` becomes the rational
    record `fecRes` (its score is real-valued in the separate embedding
    above; the pipeline only stores and multiplies it).

The mutable `scores` dict is threaded as the `MidScores` record; the
final-leverage / time-boost section (lines 1711-1756) is
`finalize_scores`.  `comp_warnings` / `sat_warnings` are plain lists
with `[]` for "absent": every source-side read distinguishing an
absent key from an empty list (`setdefault`, `not in scores`)
creates the empty list and appends, which coincides with appending. -/

/-- One market of a series: the price fields the pipeline reads. -/
structure MarketQuote where
  lastPrice : Option ℚ
  yesBid : Option ℚ
  yesAsk : Option ℚ
deriving DecidableEq, Repr

/-- A Kalshi series as returned by `get_kalshi_market`: its markets,
the attached `_validation` info (absent models the falsy empty dict),
and `total_series_volume`. -/
structure MarketSeriesView where
  markets : List MarketQuote
  validation : Option MatchResult
  totalSeriesVolume : ℚ
deriving DecidableEq, Repr

/-- The fields of a `calculate_saturation_fec` result that the pipeline
consumes. -/
structure FecResult where
  score : ℚ
  dataQuality : String
  warnings : List String
  error : Option String
deriving DecidableEq, Repr

/-- The bundled per-race inputs of the `process_races` loop body. -/
structure RaceInputs where
  raceLevel : String
  daysUntil : Option Int
  electionYear : Option Int
  currentYear : Int
  marketSeries : Option MarketSeriesView
  compPrimary : ℚ
  satKalshi : ℚ
  histFetch : Except Unit (List HistEntry)
  nandaData : Bool
  nandaFetch : Except Unit ℚ
  fecRes : FecResult

/-- The `scores` dict before the final-leverage section. -/
structure MidScores where
  source : String
  compScore : ℚ
  satScore : Option ℚ
  compDataQuality : Option String
  satDataQuality : Option String
  compWarnings : List String
  satWarnings : List String
  kalshiValidation : Option MatchResult
  fecCycle : Option Int
  satMethod : Option String
deriving DecidableEq, Repr

/-- The finished `scores` dict of one race (data-quality keys after the
source's `setdefault(..., 'unknown')`). -/
structure Scores where
  source : String
  compScore : ℚ
  satScore : Option ℚ
  leverageScore : ℚ
  compDataQuality : String
  satDataQuality : String
  compWarnings : List String
  satWarnings : List String
  kalshiValidation : Option MatchResult
  fecCycle : Option Int
  satMethod : Option String
  timePriority : Option String
deriving DecidableEq, Repr

/-- The FEC-cycle computation (identical at lines 1524-1547 and
1656-1681 of `find_scores.py` and lines 640-656 of the server copy):
push the election year down to an even cycle year, clamp future cycles
to the last completed one, default old cycles to 2024. -/
def compute_fec_cycle (electionYear : Option Int) (currentYear : Int) : Int :=
  let cycleYear :=
    match electionYear with
    | some y => if y = 0 then currentYear else y
    | none => currentYear
  let cycle := if cycleYear % 2 = 0 then cycleYear else cycleYear - 1
  let cycle :=
    if cycle > currentYear then
      if currentYear % 2 = 0 then currentYear else currentYear - 1
    else cycle
  if cycle < 2018 then 2024 else cycle

/-- The FEC saturation block (identical in tier 1 and tier 2 of
`process_races`): store the score and metadata, append the error
warning when an error was recorded. -/
def apply_fec_branch (s : MidScores) (fecRes : FecResult) (cycle : Int) : MidScores :=
  { s with satScore := some fecRes.score,
           source := s.source ++ " + FEC",
           satDataQuality := some fecRes.dataQuality,
           satWarnings :=
             fecRes.warnings
               ++ (match fecRes.error with
                   | some e => ["FEC API error: " ++ e]
                   | none => []),
           fecCycle := some cycle }

/-- The volume-threshold metadata of `calculate_saturation_kalshi`
(its log-ratio score is the abstracted `satKalshi` input). -/
def kalshi_proxy_quality (volume : ℚ) : String × List String :=
  if volume < 10 then
    ("low", ["Low Kalshi market volume - saturation score may be unreliable"])
  else if volume < 100 then
    ("medium", ["Moderate Kalshi market volume - saturation score may be less reliable"])
  else ("high", [])

/-- The state-race saturation block of tier 1 (lines 1559-1572): Kalshi
volume/spread proxy.  The guard before the `insert(0, ...)` of the
proxy note checks that the note is not already among the warnings,
which is always true for the warnings `calculate_saturation_kalshi`
produces, so the note is always prepended. -/
def apply_kalshi_proxy (s : MidScores) (volume satKalshi : ℚ) : MidScores :=
  let q := kalshi_proxy_quality volume
  { s with satScore := some satKalshi,
           satDataQuality := some q.1,
           satWarnings :=
             "Kalshi market volume/spread used as proxy for campaign finance data (not actual fundraising data)"
               :: q.2,
           satMethod := some "kalshi_proxy",
           source := s.source ++ " + Kalshi (proxy: using market volume/spread as estimate)" }

/-- Tier-1 competitiveness from the Kalshi markets (lines 1476-1518):
binary market price for at most two markets, the abstracted
entropy-based `compPrimary` otherwise, then data quality from the
series volume (the low-volume branch replaces the warnings list, as
the source assigns it). -/
def tier1_comp (s : MidScores) (ms : MarketSeriesView) (compPrimary : ℚ) : MidScores :=
  let marketVolume := ms.totalSeriesVolume
  let comp :=
    if ms.markets.length ≤ 2 then
      let mq := ms.markets.headD ⟨none, none, none⟩
      let price :=
        match mq.lastPrice with
        | some x => if x = 0 then mq.yesBid.getD 50 else x
        | none => mq.yesBid.getD 50
      if price ≠ 0 then calculate_competitiveness_general price else s.compScore
    else compPrimary
  let s := { s with compScore := comp }
  if marketVolume < 10 then
    { s with compDataQuality := some "low",
             compWarnings := ["Low Kalshi market volume - competitiveness may be unreliable"] }
  else if marketVolume < 100 then { s with compDataQuality := some "medium" }
  else { s with compDataQuality := some "high" }

/-- Tier-2 competitiveness (lines 1590-1651): historical first, NANDA
fallback, default 0.5 / low / warning when neither is available. -/
def tier2_comp (s : MidScores) (histFetch : Except Unit (List HistEntry))
    (nandaData : Bool) (nandaFetch : Except Unit ℚ) : MidScores :=
  let nandaPath := fun (s : MidScores) =>
    if nandaData then
      match nandaFetch with
      | .ok c =>
        { s with compScore := c,
                 source := s.source ++ " + NANDA",
                 compDataQuality := some "medium",
                 compWarnings :=
                   s.compWarnings ++ ["Using state-level NANDA data (not district-specific)"] }
      | .error _ =>
        { s with compScore := 1/2, compDataQuality := some "low",
                 compWarnings := ["No competitiveness data available"] }
    else
      { s with compScore := 1/2, compDataQuality := some "low",
               compWarnings := ["No competitiveness data available"] }
  match histFetch with
  | .ok results =>
    let r := calculate_competitiveness_from_historical results
    if r.2.historicalElectionsFound > 0 then
      { s with compScore := r.1,
               compDataQuality := some r.2.dataQuality,
               compWarnings := r.2.warnings,
               source := s.source ++ " + Historical" }
    else nandaPath s
  | .error _ => nandaPath s

/-- Tier 2 of the loop body (lines 1586-1699): Civic Engine
competitiveness, then FEC saturation for FEDERAL races and the
explicit no-saturation-data marker otherwise. -/
def tier2_scores (s : MidScores) (inp : RaceInputs) : MidScores :=
  let s := { s with source := "Civic Engine" }
  let s := tier2_comp s inp.histFetch inp.nandaData inp.nandaFetch
  if inp.raceLevel = "FEDERAL" then
    apply_fec_branch s inp.fecRes (compute_fec_cycle inp.electionYear inp.currentYear)
  else
    { s with satScore := none,
             satDataQuality := some "none",
             satWarnings := ["No saturation data available - Kalshi market not found"] }

/-- The loop body of `process_races` up to the final-leverage section:
tier 1 when a Kalshi series with markets was found (recording its
validation warnings), tier 2 otherwise.  A series whose markets list is
empty still records its validation info before falling through to
tier 2, as in the source (the `_validation` block runs before the
`if markets:` check). -/
def process_race_mid (inp : RaceInputs) : MidScores :=
  let s0 : MidScores :=
    { source := "", compScore := 0, satScore := some 0,
      compDataQuality := none, satDataQuality := none,
      compWarnings := [], satWarnings := [],
      kalshiValidation := none, fecCycle := none, satMethod := none }
  match inp.marketSeries with
  | some ms =>
    let s1 := { s0 with source := "Kalshi" }
    let s1 :=
      match ms.validation with
      | some v =>
        { s1 with kalshiValidation := some v, compWarnings := s1.compWarnings ++ v.warnings }
      | none => s1
    if ms.markets ≠ [] then
      let s2 := tier1_comp s1 ms inp.compPrimary
      if inp.raceLevel = "FEDERAL" then
        apply_fec_branch s2 inp.fecRes (compute_fec_cycle inp.electionYear inp.currentYear)
      else
        apply_kalshi_proxy s2 ms.totalSeriesVolume inp.satKalshi
    else tier2_scores s1 inp
  | none => tier2_scores s0 inp

/-- The multiplicative effect of the time-based boost section on the
leverage score, as a function of `days_until`. -/
def time_boost (daysUntil : Option Int) : ℚ :=
  match daysUntil with
  | some d => if d ≥ 0 then (if d ≤ 90 then 11/10 else if d ≤ 180 then 21/20 else 1) else 1
  | none => 1

/-- The final-leverage section of `process_races` (lines 1711-1756):
impact weight, neutral substitution of a missing saturation with a
warning, the leverage product, the data-quality `setdefault`s and the
time-based boost with its distant-election downgrade. -/
def finalize_scores (raceLevel : String) (daysUntil : Option Int) (s : MidScores) : Scores :=
  let impactScore : ℚ := if raceLevel = "FEDERAL" then 1 else 4/5
  let satUsed : ℚ :=
    match s.satScore with
    | none => 1/2
    | some x => x
  let satW :=
    match s.satScore with
    | none => s.satWarnings ++ ["Using default saturation (no data available)"]
    | some _ => s.satWarnings
  let lev0 := s.compScore * satUsed * impactScore
  let mk := fun (lev : ℚ) (tp : Option String) (cq : Option String) (cw : List String) =>
    { source := s.source, compScore := s.compScore, satScore := s.satScore,
      leverageScore := lev,
      compDataQuality := cq.getD "unknown",
      satDataQuality := s.satDataQuality.getD "unknown",
      compWarnings := cw, satWarnings := satW,
      kalshiValidation := s.kalshiValidation, fecCycle := s.fecCycle,
      satMethod := s.satMethod, timePriority := tp : Scores }
  match daysUntil with
  | some d =>
    if d ≥ 0 then
      if d ≤ 90 then mk (lev0 * (11/10)) (some "immediate") s.compDataQuality s.compWarnings
      else if d ≤ 180 then mk (lev0 * (21/20)) (some "near-term") s.compDataQuality s.compWarnings
      else if d > 730 then
        mk lev0 (some "long-term")
          (if s.compDataQuality = some "high" then some "low" else s.compDataQuality)
          (s.compWarnings
            ++ ["Election is " ++ toString d ++ " days away - data may be incomplete"])
      else mk lev0 (some "medium-term") s.compDataQuality s.compWarnings
    else mk lev0 none s.compDataQuality s.compWarnings
  | none => mk lev0 none s.compDataQuality s.compWarnings

/-- One race of `process_races`: the loop body followed by the
final-leverage section. -/
def process_race_scores (inp : RaceInputs) : Scores :=
  finalize_scores inp.raceLevel inp.daysUntil (process_race_mid inp)

/-! ## `calculate_race_leverage_score`
(`server/get_importance_scores.py` lines 550-691)

The near-duplicate server pipeline.  Same abstractions as above:
`marketSeries` models the `get_kalshi_market` result, `compPrimary`
the entropy competitiveness, `satKalshi` the Kalshi-proxy saturation
score, `satFec` the score of the abstracted `calculate_saturation_fec`
call, and `daysUntil` the computed day difference. -/

/-- The dictionary returned by `calculate_race_leverage_score`. -/
structure ServerScore where
  leverageScore : ℚ
  competitiveness : ℚ
  saturation : ℚ
  compSources : List String
  satMethod : Option String
  daysUntil : Option Int
deriving DecidableEq, Repr

/-- `calculate_race_leverage_score(race)`: defaults `comp = 0.5`,
`sat = 1.0`; Kalshi competitiveness when a series with markets exists;
Kalshi-proxy saturation only for a valid non-FEDERAL match with score
at least 0.6; FEC saturation for FEDERAL races without a saturation
method; `leverage = comp * sat` (no impact weight), then the time
boost. -/
def server_calculate_race_leverage_score (raceLevel : String) (daysUntil : Option Int)
    (marketSeries : Option MarketSeriesView) (compPrimary satKalshi satFec : ℚ) :
    ServerScore :=
  let compSat :=
    match marketSeries with
    | some ms =>
      if ms.markets ≠ [] then
        let comp :=
          if ms.markets.length ≤ 2 then
            let mq := ms.markets.headD ⟨none, none, none⟩
            let price :=
              match mq.lastPrice with
              | some x => if x = 0 then mq.yesBid.getD 50 else x
              | none => mq.yesBid.getD 50
            if price ≠ 0 then calculate_competitiveness_general price else 1/2
          else compPrimary
        let matchScore := (ms.validation.map (fun (v : MatchResult) => v.matchScore)).getD 1
        let isValidMatch := (ms.validation.map (fun (v : MatchResult) => v.isValid)).getD true
        if raceLevel ≠ "FEDERAL" ∧ isValidMatch = true ∧ matchScore ≥ 3/5 then
          (comp, satKalshi, ["Kalshi"], some "kalshi_proxy")
        else (comp, (1 : ℚ), ["Kalshi"], (none : Option String))
      else ((1 : ℚ)/2, (1 : ℚ), ([] : List String), (none : Option String))
    | none => ((1 : ℚ)/2, (1 : ℚ), ([] : List String), (none : Option String))
  let comp := compSat.1
  let sat0 := compSat.2.1
  let sources := compSat.2.2.1
  let satMethod0 := compSat.2.2.2
  let satAndMethod :=
    if raceLevel = "FEDERAL" ∧ satMethod0 = none then (satFec, some "fec")
    else (sat0, satMethod0)
  let sat := satAndMethod.1
  let lev0 := comp * sat
  let lev :=
    match daysUntil with
    | some d =>
      if d ≥ 0 then
        if d ≤ 90 then lev0 * (11/10) else if d ≤ 180 then lev0 * (21/20) else lev0
      else lev0
    | none => lev0
  { leverageScore := lev, competitiveness := comp, saturation := sat,
    compSources := sources, satMethod := satAndMethod.2, daysUntil := daysUntil }

/-! ## Concrete example inputs used by witnesses and counterexamples -/

/-- A neutral FEC result for exercising the pipeline. -/
def exFecResult : FecResult :=
  { score := 1/2, dataQuality := "high", warnings := [], error := none }

/-- A STATE race with no Kalshi market, no historical results, no NANDA
data, 300 days out (the spec's no-data end-to-end scenario). -/
def exStateNoData : RaceInputs :=
  { raceLevel := "STATE", daysUntil := some 300, electionYear := none,
    currentYear := 2025, marketSeries := none, compPrimary := 0, satKalshi := 0,
    histFetch := .ok [], nandaData := false, nandaFetch := .error (),
    fecRes := exFecResult }

/-- A STATE race with no Kalshi market whose competitiveness comes from
NANDA (quality `medium`), 800 days out. -/
def exStateNandaDistant : RaceInputs :=
  { raceLevel := "STATE", daysUntil := some 800, electionYear := none,
    currentYear := 2025, marketSeries := none, compPrimary := 0, satKalshi := 0,
    histFetch := .ok [], nandaData := true, nandaFetch := .ok (7/10),
    fecRes := exFecResult }

/-- A House race name with a parsed district. -/
def exHouseRaceName : String := "U.S. House - Ohio 7th Congressional District"

/-- A market series matching the state, office and year of
`exHouseRaceName` but not its district. -/
def exHouseMarketWrongDistrict : MarketSeries :=
  { seriesTitle := "Ohio House 2026", eventTitle := "", seriesTicker := "",
    eventTicker := "" }

/-- A Senate race name and a fully matching market series. -/
def exSenateRaceName : String := "U.S. Senate - Ohio"

/-- A market series matching `exSenateRaceName` on state, office and
year. -/
def exSenateMarket : MarketSeries :=
  { seriesTitle := "Ohio Senate 2026", eventTitle := "", seriesTicker := "",
    eventTicker := "" }

/-- Historical winners with two parties alternating every election. -/
def exHistAlternating : List HistEntry :=
  [⟨some "DEM"⟩, ⟨some "REP"⟩, ⟨some "DEM"⟩]

/-- A mid-state with `high` competitiveness quality and a present
saturation score. -/
def exMidHigh : MidScores :=
  { source := "", compScore := 1/2, satScore := some (1/2),
    compDataQuality := some "high", satDataQuality := some "high",
    compWarnings := [], satWarnings := [], kalshiValidation := none,
    fecCycle := none, satMethod := none }

/-! # Theorems -/

/-! ## Helper lemmas about the final-leverage section -/

lemma finalize_scores_compScore (l : String) (d : Option Int) (s : MidScores) :
    (finalize_scores l d s).compScore = s.compScore := by
  unfold finalize_scores
  cases d <;> dsimp only <;> (try split_ifs) <;> rfl

lemma finalize_scores_satScore (l : String) (d : Option Int) (s : MidScores) :
    (finalize_scores l d s).satScore = s.satScore := by
  unfold finalize_scores
  cases d <;> dsimp only <;> (try split_ifs) <;> rfl

lemma finalize_scores_satDataQuality (l : String) (d : Option Int) (s : MidScores) :
    (finalize_scores l d s).satDataQuality = s.satDataQuality.getD "unknown" := by
  unfold finalize_scores
  cases d <;> dsimp only <;> (try split_ifs) <;> rfl

lemma finalize_scores_satWarnings (l : String) (d : Option Int) (s : MidScores) :
    (finalize_scores l d s).satWarnings =
      s.satWarnings
        ++ (if s.satScore = none then ["Using default saturation (no data available)"]
            else []) := by
  unfold finalize_scores
  cases hss : s.satScore <;> cases d <;> simp [hss] <;> (try split_ifs) <;> rfl

lemma finalize_scores_leverage (l : String) (d : Option Int) (s : MidScores) :
    (finalize_scores l d s).leverageScore =
      s.compScore * (s.satScore.getD (1/2)) * (if l = "FEDERAL" then (1 : ℚ) else 4/5)
        * time_boost d := by
  unfold finalize_scores time_boost
  cases hss : s.satScore <;> cases d <;> simp [hss] <;> (try split_ifs) <;> ring

/-! ## C1 — missing saturation -/

/-- C1 (amended): in the `find_scores.py` aggregator, a non-FEDERAL
race with no Kalshi market gets saturation data-quality `none` and a
`None` saturation score, and the final-leverage section substitutes the
neutral value 0.5 into the leverage product and appends the
substitution warning.  (The claim's further assertion that this holds
in every code path that computes a leverage score is refuted by the
server pipeline, which instead keeps its default saturation of 1.0
with no warning; see the counterexample.) -/
theorem C1_find_scores_missing_saturation_substituted (inp : RaceInputs)
    (hlevel : inp.raceLevel ≠ "FEDERAL") (hmarket : inp.marketSeries = none) :
    (process_race_scores inp).satScore = none ∧
    (process_race_scores inp).satDataQuality = "none" ∧
    "Using default saturation (no data available)" ∈ (process_race_scores inp).satWarnings ∧
    (process_race_scores inp).leverageScore =
      (process_race_scores inp).compScore * (1/2) * (4/5) * time_boost inp.daysUntil := by
  have hmid : (process_race_mid inp).satScore = none ∧
      (process_race_mid inp).satDataQuality = some "none" ∧
      (process_race_mid inp).satWarnings =
        ["No saturation data available - Kalshi market not found"] := by
    unfold process_race_mid tier2_scores
    rw [hmarket]
    simp [hlevel]
  unfold process_race_scores
  refine ⟨?_, ?_, ?_, ?_⟩
  · rw [finalize_scores_satScore, hmid.1]
  · rw [finalize_scores_satDataQuality, hmid.2.1]
    rfl
  · rw [finalize_scores_satWarnings, hmid.1]
    simp
  · rw [finalize_scores_leverage, finalize_scores_compScore, hmid.1]
    simp [hlevel]

/-- Witness for C1: the STATE no-data race.  Its leverage is
0.5 × 0.5 × 0.8 = 0.2, with the substitution warning recorded. -/
theorem C1_witness :
    "STATE" ≠ "FEDERAL" ∧
    (process_race_scores exStateNoData).satScore = none ∧
    (process_race_scores exStateNoData).satDataQuality = "none" ∧
    "Using default saturation (no data available)"
      ∈ (process_race_scores exStateNoData).satWarnings ∧
    (process_race_scores exStateNoData).leverageScore =
      (process_race_scores exStateNoData).compScore * (1/2) * (4/5)
        * time_boost exStateNoData.daysUntil :=
  ⟨by decide,
   C1_find_scores_missing_saturation_substituted exStateNoData (by decide) rfl⟩

/-- Counterexample to C1 as stated: in the server pipeline
(`calculate_race_leverage_score`), a STATE race with no market keeps
the default saturation 1.0 — the leverage product uses 1.0, not the
substituted 0.5 the claim requires of every code path (and the server
result carries no warnings field at all). -/
theorem C1_counterexample_server_keeps_default_saturation :
    (server_calculate_race_leverage_score "STATE" none none (1/2) (1/2) (1/2)).saturation
        = 1 ∧
    (server_calculate_race_leverage_score "STATE" none none (1/2) (1/2) (1/2)).leverageScore
        = (server_calculate_race_leverage_score "STATE" none none (1/2) (1/2) (1/2)).competitiveness
            * (server_calculate_race_leverage_score "STATE" none none (1/2) (1/2) (1/2)).saturation ∧
    (server_calculate_race_leverage_score "STATE" none none (1/2) (1/2) (1/2)).leverageScore
        ≠ (server_calculate_race_leverage_score "STATE" none none (1/2) (1/2) (1/2)).competitiveness
            * (1/2) := by
  refine ⟨rfl, rfl, ?_⟩
  have h1 : (server_calculate_race_leverage_score "STATE" none none
      (1/2) (1/2) (1/2)).leverageScore =
      (server_calculate_race_leverage_score "STATE" none none
        (1/2) (1/2) (1/2)).competitiveness
        * (server_calculate_race_leverage_score "STATE" none none
            (1/2) (1/2) (1/2)).saturation := rfl
  have h2 : (server_calculate_race_leverage_score "STATE" none none
      (1/2) (1/2) (1/2)).competitiveness = 1/2 := rfl
  have h3 : (server_calculate_race_leverage_score "STATE" none none
      (1/2) (1/2) (1/2)).saturation = 1 := rfl
  rw [h1, h2, h3]
  norm_num

/-! ## C3 — the leverage product -/

/-- C3 (amended): in the `find_scores.py` pipeline, for every race and
all collaborator outcomes, the final leverage score equals
competitiveness × saturation (after neutral substitution of a missing
value with 0.5) × impact weight × time boost, where the impact weight
is exactly 1.0 for FEDERAL races and 0.8 otherwise — so before the
time boost the score is competitiveness × saturation × impact weight
exactly as claimed.  (The claim's "every code path" is refuted by the
server pipeline, which multiplies no impact weight; see the
counterexample.) -/
theorem C3_find_scores_leverage_product (inp : RaceInputs) :
    (process_race_scores inp).leverageScore =
      (process_race_scores inp).compScore
        * ((process_race_scores inp).satScore.getD (1/2))
        * (if inp.raceLevel = "FEDERAL" then (1 : ℚ) else 4/5)
        * time_boost inp.daysUntil := by
  unfold process_race_scores
  rw [finalize_scores_leverage, finalize_scores_compScore, finalize_scores_satScore]

/-- Counterexample to C3 as stated: the server pipeline computes
leverage = competitiveness × saturation with no impact weight, so a
STATE race scores 0.5 × 1.0 = 0.5 where the claim requires the extra
0.8 factor. -/
theorem C3_counterexample_server_no_impact_weight :
    (server_calculate_race_leverage_score "STATE" (some 300) none (1/2) (1/2) (1/2)).leverageScore
        = (server_calculate_race_leverage_score "STATE" (some 300) none (1/2) (1/2) (1/2)).competitiveness
            * (server_calculate_race_leverage_score "STATE" (some 300) none (1/2) (1/2) (1/2)).saturation ∧
    (server_calculate_race_leverage_score "STATE" (some 300) none (1/2) (1/2) (1/2)).leverageScore
        ≠ (server_calculate_race_leverage_score "STATE" (some 300) none (1/2) (1/2) (1/2)).competitiveness
            * (server_calculate_race_leverage_score "STATE" (some 300) none (1/2) (1/2) (1/2)).saturation
            * (4/5) := by
  refine ⟨rfl, ?_⟩
  have h1 : (server_calculate_race_leverage_score "STATE" (some 300) none
      (1/2) (1/2) (1/2)).leverageScore =
      (server_calculate_race_leverage_score "STATE" (some 300) none
        (1/2) (1/2) (1/2)).competitiveness
        * (server_calculate_race_leverage_score "STATE" (some 300) none
            (1/2) (1/2) (1/2)).saturation := rfl
  have h2 : (server_calculate_race_leverage_score "STATE" (some 300) none
      (1/2) (1/2) (1/2)).competitiveness = 1/2 := rfl
  have h3 : (server_calculate_race_leverage_score "STATE" (some 300) none
      (1/2) (1/2) (1/2)).saturation = 1 := rfl
  rw [h1, h2, h3]
  norm_num

/-! ## C4 — elections more than 730 days out -/

/-- C4 (amended): for every race whose election lies more than 730 days
in the future, the `find_scores.py` aggregator applies no proximity
boost, appends the distant-date warning, and marks the race long-term;
the competitiveness data-quality is forced to `low` only when the
estimator reported `high` — a reported `medium` (or `low`) quality is
left unchanged, refuting the claim's "regardless of what quality the
competitiveness estimator reported". -/
theorem C4_distant_election_no_boost_downgrade_only_high (l : String) (d : Int)
    (s : MidScores) (hd : 730 < d) :
    (finalize_scores l (some d) s).leverageScore =
      s.compScore * (s.satScore.getD (1/2)) * (if l = "FEDERAL" then (1 : ℚ) else 4/5) ∧
    ("Election is " ++ toString d ++ " days away - data may be incomplete")
      ∈ (finalize_scores l (some d) s).compWarnings ∧
    (finalize_scores l (some d) s).timePriority = some "long-term" ∧
    (finalize_scores l (some d) s).compDataQuality =
      (if s.compDataQuality = some "high" then "low" else s.compDataQuality.getD "unknown") := by
  have h0 : (0 : Int) ≤ d := by omega
  have h90 : ¬d ≤ 90 := by omega
  have h180 : ¬d ≤ 180 := by omega
  unfold finalize_scores
  simp only [h0, h90, h180, hd, if_true, if_false, ge_iff_le, if_pos, if_neg,
    not_false_iff, gt_iff_lt]
  cases hss : s.satScore <;>
    simp [hss, h0, h90, h180, hd] <;>
    split_ifs <;>
    simp_all

/-- Witness for C4: a mid-state with `high` competitiveness quality and
a present saturation score, 800 days out: no boost, warning appended,
marked long-term, quality downgraded to `low`. -/
theorem C4_witness :
    (730 : Int) < 800 ∧
    (finalize_scores "STATE" (some 800) exMidHigh).compDataQuality = "low" ∧
    (finalize_scores "STATE" (some 800) exMidHigh).timePriority = some "long-term" ∧
    (finalize_scores "STATE" (some 800) exMidHigh).leverageScore = 1/2 * (1/2) * (4/5) :=
  ⟨by decide,
   by
    have h := C4_distant_election_no_boost_downgrade_only_high "STATE" 800 exMidHigh
      (by decide)
    rw [h.2.2.2]
    rfl,
   (C4_distant_election_no_boost_downgrade_only_high "STATE" 800 exMidHigh
      (by decide)).2.2.1,
   by
    have h := C4_distant_election_no_boost_downgrade_only_high "STATE" 800 exMidHigh
      (by decide)
    rw [h.1, if_neg (show ¬("STATE" : String) = "FEDERAL" by decide)]
    norm_num [exMidHigh]⟩

/-- Counterexample to C4 as stated: a STATE race 800 days out whose
competitiveness came from NANDA with quality `medium` keeps
data-quality `medium` in the final output — it is not forced to `low`
— even though the distant-date warning is appended. -/
theorem C4_counterexample_medium_quality_not_downgraded :
    ("Election is 800 days away - data may be incomplete")
      ∈ (process_race_scores exStateNandaDistant).compWarnings ∧
    (process_race_scores exStateNandaDistant).compDataQuality = "medium" ∧
    (process_race_scores exStateNandaDistant).compDataQuality ≠ "low" := by
  have hw : (process_race_scores exStateNandaDistant).compWarnings =
      ["Using state-level NANDA data (not district-specific)",
       "Election is 800 days away - data may be incomplete"] := rfl
  have hq : (process_race_scores exStateNandaDistant).compDataQuality = "medium" := rfl
  rw [hw, hq]
  refine ⟨?_, rfl, ?_⟩
  · simp
  · intro h
    simp at h

/-! ## C5 — historical-result competitiveness classification -/

/-- C5: for every non-empty list of historical winners with known
parties, the historical strategy returns 0.3 for one unique winning
party, 0.9 for three or more, and for exactly two parties 0.8 when
transitions between consecutive elections occur in more than 50% of
the elections (the source's transition ratio
`transitions / (len(parties) - 1)` exceeds 1/2, stated here as
`2 * transitions > len(parties) - 1`) and 0.5 otherwise. -/
theorem C5_historical_party_classification (results : List HistEntry)
    (h : extractParties results ≠ []) :
    ((extractParties results).dedup.length = 1 →
      (calculate_competitiveness_from_historical results).1 = 3/10) ∧
    ((extractParties results).dedup.length = 2 →
      (calculate_competitiveness_from_historical results).1 =
        (if 2 * countTransitions (extractParties results) >
            (extractParties results).length - 1 then (4/5 : ℚ) else 1/2)) ∧
    (3 ≤ (extractParties results).dedup.length →
      (calculate_competitiveness_from_historical results).1 = 9/10) := by
  have hres : results ≠ [] := by
    intro he
    rw [he] at h
    exact h rfl
  have hE : ¬(results.isEmpty = true) := by
    simpa [List.isEmpty_iff] using hres
  have hpE : ¬((extractParties results).isEmpty = true) := by
    simpa [List.isEmpty_iff] using h
  unfold calculate_competitiveness_from_historical
  rw [if_neg hE, if_neg hpE]
  dsimp only
  refine ⟨fun h1 => ?_, fun h2 => ?_, fun h3 => ?_⟩
  · rw [if_pos h1]
  · have hn : (extractParties results).length > 1 := by
      have := (List.dedup_sublist (extractParties results)).length_le
      omega
    rw [if_neg (by omega), if_pos h2]
    simp only [hn, true_and]
  · rw [if_neg (by omega), if_neg (by omega)]

/-- Witness for C5: two parties alternating over three elections give
0.8. -/
theorem C5_witness :
    extractParties exHistAlternating ≠ [] ∧
    (calculate_competitiveness_from_historical exHistAlternating).1 = 4/5 := by
  refine ⟨by decide, ?_⟩
  have h := (C5_historical_party_classification exHistAlternating (by decide)).2.1
    (by decide)
  rw [h, if_pos (by decide)]

/-! ## C9 — binary-market competitiveness shape -/

/-- C9: on the clamped range `[1, 99]` the binary-market
competitiveness lies in `[0, 1]`, equals 1 exactly at a price of 50,
and strictly decreases as the price moves away from 50 on either side;
prices outside `[1, 99]` are first clamped to the range boundary. -/
theorem C9_competitiveness_general_shape :
    calculate_competitiveness_general 50 = 1 ∧
    (∀ p : ℚ, 1 ≤ p → p ≤ 99 →
        0 ≤ calculate_competitiveness_general p ∧
        calculate_competitiveness_general p ≤ 1 ∧
        (calculate_competitiveness_general p = 1 ↔ p = 50)) ∧
    (∀ p q : ℚ, 50 ≤ p → p < q → q ≤ 99 →
        calculate_competitiveness_general q < calculate_competitiveness_general p) ∧
    (∀ p q : ℚ, 1 ≤ p → p < q → q ≤ 50 →
        calculate_competitiveness_general p < calculate_competitiveness_general q) ∧
    (∀ p : ℚ, p < 1 → calculate_competitiveness_general p = calculate_competitiveness_general 1) ∧
    (∀ p : ℚ, 99 < p → calculate_competitiveness_general p = calculate_competitiveness_general 99) := by
  have heval : ∀ p : ℚ, 1 ≤ p → p ≤ 99 →
      calculate_competitiveness_general p = 1 - |p - 50| / 50 := by
    intro p h1 h2
    unfold calculate_competitiveness_general
    rw [min_eq_right h2, max_eq_right h1]
  refine ⟨by norm_num [calculate_competitiveness_general], ?_, ?_, ?_, ?_, ?_⟩
  · intro p h1 h2
    rw [heval p h1 h2]
    rcases le_total p 50 with hp | hp
    · rw [abs_of_nonpos (by linarith)]
      refine ⟨by linarith, by linarith, ?_⟩
      constructor
      · intro he
        linarith
      · intro he
        rw [he]
        norm_num
    · rw [abs_of_nonneg (by linarith)]
      refine ⟨by linarith, by linarith, ?_⟩
      constructor
      · intro he
        linarith
      · intro he
        rw [he]
        norm_num
  · intro p q hp hpq hq
    rw [heval p (by linarith) (by linarith), heval q (by linarith) hq,
      abs_of_nonneg (by linarith : (0 : ℚ) ≤ p - 50),
      abs_of_nonneg (by linarith : (0 : ℚ) ≤ q - 50)]
    linarith
  · intro p q hp hpq hq
    rw [heval p hp (by linarith), heval q (by linarith) (by linarith),
      abs_of_nonpos (by linarith : p - 50 ≤ (0 : ℚ)),
      abs_of_nonpos (by linarith : q - 50 ≤ (0 : ℚ))]
    linarith
  · intro p hp
    unfold calculate_competitiveness_general
    rw [min_eq_right (by linarith : p ≤ (99 : ℚ)), max_eq_left (by linarith : p ≤ (1 : ℚ)),
      min_eq_right (by norm_num : (1 : ℚ) ≤ 99), max_eq_right (le_refl (1 : ℚ))]
  · intro p hp
    unfold calculate_competitiveness_general
    rw [min_eq_left (by linarith : (99 : ℚ) ≤ p), max_eq_right (by norm_num : (1 : ℚ) ≤ 99),
      min_eq_right (le_refl (99 : ℚ)), max_eq_right (by norm_num : (1 : ℚ) ≤ 99)]

/-- Witness for C9: the price 60 scores 0.8, inside the bounds, and a
price further from 50 scores strictly less. -/
theorem C9_witness :
    (1 : ℚ) ≤ 60 ∧ (60 : ℚ) ≤ 99 ∧
    0 ≤ calculate_competitiveness_general 60 ∧
    calculate_competitiveness_general 60 ≤ 1 ∧
    calculate_competitiveness_general 70 < calculate_competitiveness_general 60 := by
  refine ⟨by norm_num, by norm_num, ?_, ?_, ?_⟩
  · exact ((C9_competitiveness_general_shape.2.1 60 (by norm_num) (by norm_num)).1)
  · exact ((C9_competitiveness_general_shape.2.1 60 (by norm_num) (by norm_num)).2.1)
  · exact (C9_competitiveness_general_shape.2.2.1 60 70 (by norm_num) (by norm_num)
      (by norm_num))

/-! ## C6 / C10 — the dollar-power multiplier -/

lemma dpm_core_mono (p q : ℝ) (hp : 0 ≤ p) (hpq : p ≤ q) :
    max 0.5 (min 5 (1 + Real.logb 10 (1 + min p 1 * 1000) * 2)) ≤
      max 0.5 (min 5 (1 + Real.logb 10 (1 + min q 1 * 1000) * 2)) := by
  have hminp : (0 : ℝ) ≤ min p 1 := le_min hp zero_le_one
  have h1 : (0 : ℝ) < 1 + min p 1 * 1000 := by nlinarith
  have h2 : 1 + min p 1 * 1000 ≤ 1 + min q 1 * 1000 := by
    have := min_le_min hpq (le_refl (1 : ℝ))
    nlinarith
  have hlog := Real.logb_le_logb_of_le (by norm_num : (1 : ℝ) < 10) h1 h2
  exact max_le_max (le_refl _) (min_le_min (le_refl _) (by linarith))

/-- C6: the dollar-power multiplier is exactly 1 for non-positive
donation or volume; for positive inputs it is the clamped
`1 + 2·log10(1 + 1000·min(donation/volume, 1))`; it is non-decreasing
in the proportion `donation/volume`; and it always lies in
`[0.5, 5.0]`. -/
theorem C6_dollar_power_multiplier_spec (d v : ℝ) :
    ((d ≤ 0 ∨ v ≤ 0) → calculate_dollar_power_multiplier d v = 1) ∧
    (0 < d → 0 < v →
      calculate_dollar_power_multiplier d v =
        max 0.5 (min 5 (1 + 2 * Real.logb 10 (1 + 1000 * min (d / v) 1)))) ∧
    (∀ d2 v2 : ℝ, 0 < d → 0 < v → 0 < d2 → 0 < v2 → d / v ≤ d2 / v2 →
      calculate_dollar_power_multiplier d v ≤ calculate_dollar_power_multiplier d2 v2) ∧
    (0.5 ≤ calculate_dollar_power_multiplier d v ∧
      calculate_dollar_power_multiplier d v ≤ 5) := by
  refine ⟨?_, ?_, ?_, ?_⟩
  · intro h
    unfold calculate_dollar_power_multiplier
    split_ifs with h1 h2
    · rfl
    · rfl
    · rcases h with h | h
      · exact absurd h h2
      · exact absurd h h1
  · intro hd hv
    unfold calculate_dollar_power_multiplier
    rw [if_neg (by linarith), if_neg (by linarith)]
    dsimp only
    have harg : (1 : ℝ) + min (d / v) 1 * 1000 = 1 + 1000 * min (d / v) 1 := by ring
    rw [harg]
    ring_nf
  · intro d2 v2 hd hv hd2 hv2 hle
    unfold calculate_dollar_power_multiplier
    rw [if_neg (by linarith), if_neg (by linarith), if_neg (by linarith),
      if_neg (by linarith)]
    exact dpm_core_mono (d / v) (d2 / v2) (le_of_lt (div_pos hd hv)) hle
  · unfold calculate_dollar_power_multiplier
    split_ifs with h1 h2
    · norm_num
    · norm_num
    · exact ⟨le_max_left _ _, max_le (by norm_num) (min_le_left _ _)⟩

/-- Witness for C6: a non-positive donation gives exactly 1; for the
positive pair (1, 4) against (2, 4) the multiplier is monotone and
within the bounds. -/
theorem C6_witness :
    calculate_dollar_power_multiplier (-1) 5 = 1 ∧
    calculate_dollar_power_multiplier 1 4 ≤ calculate_dollar_power_multiplier 2 4 ∧
    0.5 ≤ calculate_dollar_power_multiplier 2 4 ∧
    calculate_dollar_power_multiplier 2 4 ≤ 5 :=
  ⟨(C6_dollar_power_multiplier_spec (-1) 5).1 (Or.inl (by norm_num)),
   (C6_dollar_power_multiplier_spec 1 4).2.2.1 2 4 (by norm_num) (by norm_num)
     (by norm_num) (by norm_num) (by norm_num),
   (C6_dollar_power_multiplier_spec 2 4).2.2.2.1,
   (C6_dollar_power_multiplier_spec 2 4).2.2.2.2⟩

/-- C10 (implicit): the multiplier never goes below 1 — the stated
lower clamp of 0.5 is unreachable, because the logarithm term is
non-negative for every reachable proportion and all non-positive
inputs return exactly 1 — so the monetary factor can only preserve or
increase a non-negative score. -/
theorem C10_multiplier_never_below_one (d v : ℝ) :
    1 ≤ calculate_dollar_power_multiplier d v ∧
      calculate_dollar_power_multiplier d v ≤ 5 := by
  unfold calculate_dollar_power_multiplier
  split_ifs with h1 h2
  · norm_num
  · norm_num
  · push_neg at h1 h2
    dsimp only
    have hp : (0 : ℝ) ≤ min (d / v) 1 := le_min (le_of_lt (div_pos h2 h1)) zero_le_one
    have harg : (1 : ℝ) ≤ 1 + min (d / v) 1 * 1000 := by nlinarith
    have hlog : 0 ≤ Real.logb 10 (1 + min (d / v) 1 * 1000) :=
      Real.logb_nonneg (by norm_num) harg
    constructor
    · exact le_trans (le_min (by norm_num) (by linarith)) (le_max_right _ _)
    · exact max_le (by norm_num) (min_le_left _ _)

/-! ## C7 / C8 — FEC saturation -/

lemma fec_parse_ok {raceName : String}
    (hoff : (parse_race_name raceName).office ≠ none)
    (hst : (parse_race_name raceName).state ≠ none) :
    ¬((parse_race_name raceName).office = none ∨ (parse_race_name raceName).state = none) := by
  tauto

lemma fec_ok_score (raceName : String) (cycle currentYear : Int) (x : ℝ)
    (hoff : (parse_race_name raceName).office ≠ none)
    (hst : (parse_race_name raceName).state ≠ none) :
    (calculate_saturation_fec raceName cycle currentYear (.ok x)).1 =
      if x = 0 then 1 else max 0.05 (min 1 (1 / Real.log (1 + x))) := by
  unfold calculate_saturation_fec
  rw [if_neg (fec_parse_ok hoff hst)]
  dsimp only
  by_cases hx : x = 0
  · rw [if_pos hx, if_pos hx]
  · rw [if_neg hx, if_neg hx]

/-- C7: with the provider fetch abstracted, the FEC saturation score as
a function of total receipts is bounded in `[0.05, 1]` for every
non-negative receipts value, equals exactly 1 at zero receipts, and is
monotonically non-increasing in the receipts. -/
theorem C7_fec_saturation_monotone_bounded (raceName : String) (cycle currentYear : Int)
    (r r2 : ℝ)
    (hoff : (parse_race_name raceName).office ≠ none)
    (hst : (parse_race_name raceName).state ≠ none)
    (hr : 0 ≤ r) (hr2 : 0 ≤ r2) :
    (0.05 ≤ (calculate_saturation_fec raceName cycle currentYear (.ok r)).1 ∧
      (calculate_saturation_fec raceName cycle currentYear (.ok r)).1 ≤ 1) ∧
    (r = 0 → (calculate_saturation_fec raceName cycle currentYear (.ok r)).1 = 1) ∧
    (r ≤ r2 → (calculate_saturation_fec raceName cycle currentYear (.ok r2)).1 ≤
      (calculate_saturation_fec raceName cycle currentYear (.ok r)).1) := by
  have hb : ∀ x : ℝ, 0.05 ≤ (calculate_saturation_fec raceName cycle currentYear (.ok x)).1 ∧
      (calculate_saturation_fec raceName cycle currentYear (.ok x)).1 ≤ 1 := by
    intro x
    rw [fec_ok_score raceName cycle currentYear x hoff hst]
    split_ifs with hx
    · norm_num
    · constructor
      · exact le_max_left _ _
      · exact max_le (by norm_num) (min_le_left _ _)
  refine ⟨hb r, ?_, ?_⟩
  · intro h0
    rw [fec_ok_score raceName cycle currentYear r hoff hst, if_pos h0]
  · intro hle
    rw [fec_ok_score raceName cycle currentYear r hoff hst,
      fec_ok_score raceName cycle currentYear r2 hoff hst]
    by_cases hr0 : r = 0
    · rw [if_pos hr0]
      split_ifs with h2
      · exact le_refl _
      · exact max_le (by norm_num) (min_le_left _ _)
    · have hrpos : 0 < r := lt_of_le_of_ne hr (Ne.symm hr0)
      have hr2pos : 0 < r2 := lt_of_lt_of_le hrpos hle
      rw [if_neg hr0, if_neg (ne_of_gt hr2pos)]
      have hlogr : 0 < Real.log (1 + r) := Real.log_pos (by linarith)
      have hloglog : Real.log (1 + r) ≤ Real.log (1 + r2) :=
        Real.log_le_log (by linarith) (by linarith)
      have hdiv : 1 / Real.log (1 + r2) ≤ 1 / Real.log (1 + r) :=
        one_div_le_one_div_of_le hlogr hloglog
      exact max_le_max (le_refl _) (min_le_min (le_refl _) hdiv)

/-- Witness for C7: a parsable Senate race at zero receipts scores
exactly 1. -/
theorem C7_witness :
    (0 : ℝ) ≤ 0 ∧
    (calculate_saturation_fec "U.S. Senate - Ohio" 2024 2025 (.ok 0)).1 = 1 :=
  ⟨le_refl 0,
   (C7_fec_saturation_monotone_bounded "U.S. Senate - Ohio" 2024 2025 0 0
     (by decide) (by decide) (le_refl 0) (le_refl 0)).2.1 rfl⟩

/-- C8: the two degraded outcomes of `calculate_saturation_fec` are
distinct: a provider exception yields the conservative neutral 0.5
with the error recorded and data-quality `none`, while a successful
fetch of zero total receipts yields 1.0 with a warning and no recorded
error; both return normally instead of raising. -/
theorem C8_fec_error_distinct_from_zero_receipts (raceName : String)
    (cycle currentYear : Int) (e : String)
    (hoff : (parse_race_name raceName).office ≠ none)
    (hst : (parse_race_name raceName).state ≠ none) :
    (calculate_saturation_fec raceName cycle currentYear (.error e)).1 = 0.5 ∧
    (calculate_saturation_fec raceName cycle currentYear (.error e)).2.dataQuality = "none" ∧
    (calculate_saturation_fec raceName cycle currentYear (.error e)).2.error = some e ∧
    (calculate_saturation_fec raceName cycle currentYear (.ok 0)).1 = 1 ∧
    (calculate_saturation_fec raceName cycle currentYear (.ok 0)).2.error = none ∧
    "No fundraising data found - may indicate no candidates or incomplete data"
      ∈ (calculate_saturation_fec raceName cycle currentYear (.ok 0)).2.warnings := by
  have hpar := fec_parse_ok hoff hst
  unfold calculate_saturation_fec
  simp only [if_neg hpar]
  simp

/-- Witness for C8: the parsable Senate race again, with a concrete
exception message. -/
theorem C8_witness :
    (calculate_saturation_fec "U.S. Senate - Ohio" 2024 2025 (.error "timeout")).1 = 0.5 ∧
    (calculate_saturation_fec "U.S. Senate - Ohio" 2024 2025 (.ok 0)).1 = 1 ∧
    (calculate_saturation_fec "U.S. Senate - Ohio" 2024 2025 (.error "timeout")).2.error
      = some "timeout" :=
  ⟨(C8_fec_error_distinct_from_zero_receipts "U.S. Senate - Ohio" 2024 2025 "timeout"
      (by decide) (by decide)).1,
   (C8_fec_error_distinct_from_zero_receipts "U.S. Senate - Ohio" 2024 2025 "timeout"
      (by decide) (by decide)).2.2.2.1,
   (C8_fec_error_distinct_from_zero_receipts "U.S. Senate - Ohio" 2024 2025 "timeout"
      (by decide) (by decide)).2.2.1⟩

/-! ## C2 — market-match validity invariant -/

lemma validity_bool (sm om dm ym : Bool) (nd : Prop) [Decidable nd] :
    ((if nd then sm && om && dm else sm && om)
        || (!(if nd then sm && om && dm else sm && om) && sm && om && ym)) = true →
    sm = true ∧ om = true ∧ (nd → dm = true ∨ ym = true) := by
  split_ifs with h
  · cases sm <;> cases om <;> cases dm <;> cases ym <;> simp_all
  · cases sm <;> cases om <;> cases dm <;> cases ym <;> simp_all

/-- C2 (amended): whenever the validator returns `is_valid = True`, the
state matched and the office type matched; for a House race with a
truthy parsed district, the district also matched unless the lenient
fallback fired — i.e. unless the year matched (exactly or within two
years) or no truthy election year was supplied, in which case the
market is validated despite the district mismatch.  (The claim's
unconditional district requirement is refuted by the counterexample.) -/
theorem C2_validity_requires_state_office (m : MarketSeries) (raceName : String)
    (y : Option Int)
    (h : (validate_kalshi_market_match (some m) raceName y).isValid = true) :
    vStateMatch m raceName = true ∧ vOfficeMatch m raceName = true ∧
    ((parse_race_name raceName).office = some 'H' ∧
        districtTruthy (parse_race_name raceName) = true →
      vDistrictMatch m raceName = true ∨
        (vYearMatched (vYearOutcome m y) || !yearTruthy y) = true) := by
  unfold validate_kalshi_market_match at h
  dsimp only at h
  exact validity_bool (vStateMatch m raceName) (vOfficeMatch m raceName)
    (vDistrictMatch m raceName) (vYearMatched (vYearOutcome m y) || !yearTruthy y)
    ((parse_race_name raceName).office = some 'H' ∧
      districtTruthy (parse_race_name raceName) = true) h

/-- Witness for C2: a fully matching Senate market is valid, so the
state and office flags hold. -/
theorem C2_witness :
    (validate_kalshi_market_match (some exSenateMarket) exSenateRaceName
        (some 2026)).isValid = true ∧
    vStateMatch exSenateMarket exSenateRaceName = true ∧
    vOfficeMatch exSenateMarket exSenateRaceName = true :=
  ⟨by decide,
   (C2_validity_requires_state_office exSenateMarket exSenateRaceName (some 2026)
      (by decide)).1,
   (C2_validity_requires_state_office exSenateMarket exSenateRaceName (some 2026)
      (by decide)).2.1⟩

/-- Counterexample to C2 as stated: a market for the right state,
office and year but the wrong district is still validated (via the
lenient fallback) for a House race with a required district — so
`is_valid = True` does not imply a district match. -/
theorem C2_counterexample_lenient_validates_district_mismatch :
    (validate_kalshi_market_match (some exHouseMarketWrongDistrict) exHouseRaceName
        (some 2026)).isValid = true ∧
    (parse_race_name exHouseRaceName).office = some 'H' ∧
    (parse_race_name exHouseRaceName).district = some 7 ∧
    vDistrictMatch exHouseMarketWrongDistrict exHouseRaceName = false := by
  decide

end Leverage
